import Mathlib

set_option maxHeartbeats 1000000

/-!
Shallow embedding of the MCP chat clients of this repository.

The repository contains three provider-client variants:

* ClientA - the first class in src/oai2.ts (an options-based client whose
  ask loop reads OpenAI-shaped replies; its final phase is at src/oai2.ts
  lines 321-328);
* ClientB - the second class in src/oai2.ts (the OpenAI function-calling
  client, src/oai2.ts lines 531-875);
* ClientC - the Anthropic tool-use client in src/unnamed/part_001
  (lines 523-877).

Process and network boundaries are modeled as explicit oracles: the model
provider is a finite script of round outcomes consumed in order, and the JS
runtime JSON.parse and the MCP SDK callTool are function parameters.  JSON
values are modeled by an inductive type whose numeric literals are integers
(the payloads exchanged in this repository use integral numbers).
-/

/-- JSON value as manipulated by the clients. -/
inductive Json where
| null : Json
| bool (b : Bool) : Json
| num (n : Int) : Json
| str (s : String) : Json
| arr (elems : List Json) : Json
| obj (fields : List (String × Json)) : Json

/-- JSON string escaping of a single character, as performed by
JSON.stringify for the characters that occur in this development. -/
def escapeChar (c : Char) : String :=
  if c = '"' then "\\\""
  else if c = '\\' then "\\\\"
  else if c = '\n' then "\\n"
  else if c = '\r' then "\\r"
  else if c = '\t' then "\\t"
  else String.singleton c

/-- JSON string escaping applied to a character list. -/
def escapeList : List Char → String
| [] => ""
| c :: cs => escapeChar c ++ escapeList cs

/-- JSON string escaping, character by character. -/
def escapeString (s : String) : String :=
  escapeList s.data

mutual

/-- JSON.stringify on the Json model: objects keep insertion order, arrays
keep element order, strings are quoted and escaped. -/
def Json.stringify : Json → String
| .null => "null"
| .bool b => cond b "true" "false"
| .num n => toString n
| .str s => "\"" ++ escapeString s ++ "\""
| .arr elems => "[" ++ String.intercalate "," (stringifyList elems) ++ "]"
| .obj fields => "\x7b" ++ String.intercalate "," (stringifyFields fields) ++ "\x7d"

/-- JSON.stringify mapped over array elements. -/
def stringifyList : List Json → List String
| [] => []
| x :: xs => x.stringify :: stringifyList xs

/-- JSON.stringify mapped over object fields. -/
def stringifyFields : List (String × Json) → List String
| [] => []
| (k, v) :: fs => ("\"" ++ escapeString k ++ "\":" ++ v.stringify) :: stringifyFields fs

end

/-- JavaScript truthiness of a Json value: null, false, 0 and the empty
string are falsy; every array and object is truthy. -/
def Json.truthy : Json → Bool
| .null => false
| .bool b => b
| .num n => decide (n ≠ 0)
| .str s => decide (s ≠ "")
| .arr _ => true
| .obj _ => true

/-- Property access j.k on a Json value: some value if j is an object with
the field, none (JS undefined) otherwise. -/
def Json.lookup : Json → String → Option Json
| .obj fields, k => List.lookup k fields
| _, _ => none

mutual

/-- String conversion applied by Array.prototype.join to one element:
null and undefined render as the empty string, other values via String(). -/
def jsJoinElemString : Json → String
| .null => ""
| .bool b => cond b "true" "false"
| .num n => toString n
| .str s => s
| .arr elems => String.intercalate "," (jsJoinElemList elems)
| .obj _ => "[object Object]"

/-- Element-wise String conversion for a joined array. -/
def jsJoinElemList : List Json → List String
| [] => []
| x :: xs => jsJoinElemString x :: jsJoinElemList xs

end

/-- One element of the content-array map in the tool-result normalization
(src/oai2.ts lines 780-782, identical at src/unnamed/part_001 lines
776-778): item.type === 'text' ? item.text : JSON.stringify(item), as
subsequently rendered by Array.prototype.join (a missing text field is
undefined and joins as the empty string). -/
def itemText (item : Json) : String :=
  match item.lookup "type" with
  | some (.str t) =>
    if t = "text" then
      match item.lookup "text" with
      | none => ""
      | some v => jsJoinElemString v
    else item.stringify
  | _ => item.stringify

/-- MCP tool-result normalization, src/oai2.ts lines 777-790 (the identical
code appears at src/oai2.ts lines 281-295 and src/unnamed/part_001 lines
772-786): if toolResult.content is truthy then an array content is joined
with newlines element-wise via itemText, a string content is used as is,
and any other content value is serialized with JSON.stringify; otherwise
(content absent or falsy, e.g. the empty string) the whole payload is
serialized with JSON.stringify. -/
def normalizeToolResult (toolResult : Json) : String :=
  match toolResult.lookup "content" with
  | none => toolResult.stringify
  | some content =>
    if content.truthy then
      match content with
      | .arr items => String.intercalate "\n" (items.map itemText)
      | .str s => s
      | other => other.stringify
    else toolResult.stringify

/-- The normalization rule exactly as claim C4 states it: a content array is
newline-joined element-wise, a bare-string content is used unchanged, and in
every other case the whole payload is serialized. -/
def normalizeC4Spec (payload : Json) : String :=
  match payload.lookup "content" with
  | some (.arr items) => String.intercalate "\n" (items.map itemText)
  | some (.str s) => s
  | _ => payload.stringify

/-- The normalization rule as amended: with a present and truthy content, an
array joins with newlines, a non-empty string passes through, and any other
truthy value is serialized by itself; with content absent or falsy (the
empty string in particular) the whole payload is serialized. -/
def normalizeC4Amended (payload : Json) : String :=
  match payload.lookup "content" with
  | some (.arr items) => String.intercalate "\n" (items.map itemText)
  | some (.str s) => if s = "" then payload.stringify else s
  | some other => if other.truthy then other.stringify else payload.stringify
  | none => payload.stringify

/-- One requested function call in an OpenAI reply (src/oai2.ts lines
507-514): the entry of message.tool_calls, flattened to its id, function
name and JSON-encoded argument string. -/
structure ToolCall where
  id : String
  name : String
  arguments : String

/-- A conversation entry of the OpenAI-style clients (interface
OpenAIMessage, src/oai2.ts lines 504-516).  The interface declares role,
content, tool_calls? and tool_call_id?; the extra field is_error records
whether an is_error property is present on the pushed object - no object
literal in these clients carries one, so every constructor application in
this file sets it to none.  It is carried so that statements about an
is_error marking on tool turns can be expressed. -/
structure OpenAIMessage where
  role : String
  content : Option String
  tool_calls : Option (List ToolCall)
  tool_call_id : Option String
  is_error : Option Bool

/-- The message object result.choices[0].message that
MCPClient.callOpenAI returns on success (src/oai2.ts lines 628-658). -/
structure ChoiceMessage where
  content : Option String
  tool_calls : Option (List ToolCall)

/-- A non-success HTTP reply of the completion endpoint: its status code
and response body, from which the thrown error message is built. -/
structure HttpFailure where
  status : Nat
  body : String

/-- The ways an ask run can end without a final answer: the provider
endpoint returned a non-success status (the thrown OpenAI API error), or
the finite provider script was exhausted while the loop still demanded
another provider round (a trace-model artifact standing for an execution
longer than the script). -/
inductive AskError where
| providerError (status : Nat) (body : String) : AskError
| scriptEnded : AskError

/-- The message of the error thrown by MCPClient.callOpenAI on a
non-success status (src/oai2.ts line 652). -/
def AskError.message : AskError → String
| .providerError status body => "OpenAI API error: " ++ toString status ++ " " ++ body
| .scriptEnded => "provider script exhausted"

/-- One provider round outcome: a parsed reply message or an HTTP failure. -/
abbrev ProviderStep := Except HttpFailure ChoiceMessage

/-- MCPClient.callTool (src/oai2.ts lines 661-678, identical at
src/unnamed/part_001 lines 674-688): forwards to the SDK client.callTool -
here the oracle sdk - and rethrows any failure as a new error whose
message is 'Tool call failed: ' followed by the original error. -/
def MCPClient.callTool (sdk : String → Json → Except String Json)
    (name : String) (args : Json) : Except String Json :=
  match sdk name args with
  | .ok r => .ok r
  | .error e => .error ("Tool call failed: " ++ e)

/-- The loop body executed for one requested tool call in ClientB's ask
(src/oai2.ts lines 769-808): JSON.parse the argument string (parse is the
runtime parser, failing with the SyntaxError message), invoke the tool,
normalize the payload, and push a role 'tool' message carrying the
originating call id; any thrown error is caught and pushed as a role
'tool' message whose content is 'Error: ' followed by the error message. -/
def ClientB.execToolCall (parse : String → Except String Json)
    (sdk : String → Json → Except String Json) (toolCall : ToolCall) : OpenAIMessage :=
  match parse toolCall.arguments with
  | .error m => ⟨"tool", some ("Error: " ++ m), none, some toolCall.id, none⟩
  | .ok args =>
    match MCPClient.callTool sdk toolCall.name args with
    | .error m => ⟨"tool", some ("Error: " ++ m), none, some toolCall.id, none⟩
    | .ok toolResult => ⟨"tool", some (normalizeToolResult toolResult), none, some toolCall.id, none⟩

/-- The dispatch phase of ClientB's ask: the for loop over
response.tool_calls, executed sequentially in request order, producing the
tool messages that are pushed one after another. -/
def ClientB.dispatchAll (parse : String → Except String Json)
    (sdk : String → Json → Except String Json) (toolCalls : List ToolCall) : List OpenAIMessage :=
  toolCalls.map (ClientB.execToolCall parse sdk)

/-- The while loop of ClientB's ask (src/oai2.ts lines 760-813), driven by
the remaining provider script: while the current reply carries a non-empty
tool_calls list, push the assistant turn, dispatch every requested call in
order, and consume the next provider round; otherwise push the final
assistant turn and return response.content or the empty string. -/
def ClientB.askLoop (parse : String → Except String Json)
    (sdk : String → Json → Except String Json) :
    List ProviderStep → ChoiceMessage → List OpenAIMessage →
    List OpenAIMessage × Except AskError String
| script, response, history =>
  match response.tool_calls with
  | some (tc :: tcs) =>
    let hist1 := history ++ [⟨"assistant", response.content, some (tc :: tcs), none, none⟩]
    let hist2 := hist1 ++ ClientB.dispatchAll parse sdk (tc :: tcs)
    match script with
    | [] => (hist2, .error .scriptEnded)
    | .error f :: _ => (hist2, .error (.providerError f.status f.body))
    | .ok next :: rest => ClientB.askLoop parse sdk rest next hist2
  | _ =>
    (history ++ [⟨"assistant", response.content, none, none, none⟩],
     .ok (response.content.getD ""))

/-- MCPClient.ask of ClientB (src/oai2.ts lines 743-829): push the user
question, request the first provider round, and run the tool-call loop.
The returned pair is the conversation history as left by the call
(mutations to the instance field persist even when an error propagates)
together with the returned string or the propagated error. -/
def ClientB.ask (parse : String → Except String Json)
    (sdk : String → Json → Except String Json)
    (script : List ProviderStep) (history : List OpenAIMessage) (question : String) :
    List OpenAIMessage × Except AskError String :=
  let hist1 := history ++ [⟨"user", some question, none, none, none⟩]
  match script with
  | [] => (hist1, .error .scriptEnded)
  | .error f :: _ => (hist1, .error (.providerError f.status f.body))
  | .ok response :: rest => ClientB.askLoop parse sdk rest response hist1

/-- The final phase of ClientA's ask (src/oai2.ts lines 321-328): when the
reply carries no tool calls, push the assistant turn with the reply content
and return finalMessage.content || 'No response content' - the placeholder
replaces both a null and an empty final content. -/
def ClientA.finalPhase (content : Option String) : OpenAIMessage × String :=
  (⟨"assistant", content, none, none, none⟩,
   match content with
   | some s => if s = "" then "No response content" else s
   | none => "No response content")

/-- One entry of an Anthropic message content array (interface
AnthropicMessage, src/unnamed/part_001 lines 536-548): a text, tool_use or
tool_result item, with every optional property made explicit. -/
structure AnthItem where
  type : String
  text : Option String
  id : Option String
  name : Option String
  input : Option Json
  content : Option String
  is_error : Option Bool
  tool_use_id : Option String

/-- The content of an Anthropic conversation message: a bare string (the
pushed user question) or an array of items. -/
inductive AnthContent where
| str (s : String) : AnthContent
| blocks (items : List AnthItem) : AnthContent

/-- A conversation entry of ClientC (interface AnthropicMessage,
src/unnamed/part_001 lines 536-548). -/
structure AnthMessage where
  role : String
  content : AnthContent

/-- The parsed reply of the Anthropic messages endpoint as ClientC's ask
reads it: its stop_reason and its content array. -/
structure AnthResponse where
  stop_reason : Option String
  content : List AnthItem

/-- One Anthropic provider round outcome. -/
abbrev AnthProviderStep := Except HttpFailure AnthResponse

/-- ClientC's callTool wrapper (src/unnamed/part_001 lines 674-688),
forwarding the tool_use block's name and input exactly as they occur
(either may be absent on a malformed block). -/
def ClientC.callTool (sdk : Option String → Option Json → Except String Json)
    (name : Option String) (input : Option Json) : Except String Json :=
  match sdk name input with
  | .ok r => .ok r
  | .error e => .error ("Tool call failed: " ++ e)

/-- The loop body executed for one tool_use block in ClientC's ask
(src/unnamed/part_001 lines 767-801): invoke the tool, normalize the
payload, and collect a tool_result item carrying tool_use_id; a thrown
error is caught and collected as a tool_result item whose content is
'Error: ' followed by the error message and whose is_error is true. -/
def ClientC.execToolUse (sdk : Option String → Option Json → Except String Json)
    (block : AnthItem) : AnthItem :=
  match ClientC.callTool sdk block.name block.input with
  | .ok toolResult =>
    ⟨"tool_result", none, none, none, none, some (normalizeToolResult toolResult), none, block.id⟩
  | .error m =>
    ⟨"tool_result", none, none, none, none, some ("Error: " ++ m), some true, block.id⟩

/-- The dispatch phase of ClientC's ask: the for loop over
response.content, acting on the tool_use blocks in order and collecting
their tool_result items in that same order. -/
def ClientC.dispatchAll (sdk : Option String → Option Json → Except String Json)
    (blocks : List AnthItem) : List AnthItem :=
  (blocks.filter (fun b => b.type == "tool_use")).map (ClientC.execToolUse sdk)

/-- The final text extraction of ClientC's ask (src/unnamed/part_001 lines
825-831): the concatenation of contentBlock.text over the blocks of type
'text'; JS string concatenation renders a missing text field (undefined)
as the literal string 'undefined'. -/
def ClientC.extractText (blocks : List AnthItem) : String :=
  String.join ((blocks.filter (fun b => b.type == "text")).map (fun b => b.text.getD "undefined"))

/-- The while loop of ClientC's ask (src/unnamed/part_001 lines 756-833):
while stop_reason is 'tool_use', push the assistant turn, dispatch the
tool_use blocks, and - when any result was collected - push them as one
user turn and consume the next provider round; with no collected result
the loop breaks, after which the final assistant turn is pushed (again)
and the concatenated text content is returned. -/
def ClientC.askLoop (sdk : Option String → Option Json → Except String Json) :
    List AnthProviderStep → AnthResponse → List AnthMessage →
    List AnthMessage × Except AskError String
| script, response, history =>
  if response.stop_reason == some "tool_use" then
    let hist1 := history ++ [⟨"assistant", .blocks response.content⟩]
    let toolResults := ClientC.dispatchAll sdk response.content
    if toolResults.isEmpty then
      (hist1 ++ [⟨"assistant", .blocks response.content⟩],
       .ok (ClientC.extractText response.content))
    else
      let hist2 := hist1 ++ [⟨"user", .blocks toolResults⟩]
      match script with
      | [] => (hist2, .error .scriptEnded)
      | .error f :: _ => (hist2, .error (.providerError f.status f.body))
      | .ok next :: rest => ClientC.askLoop sdk rest next hist2
  else
    (history ++ [⟨"assistant", .blocks response.content⟩],
     .ok (ClientC.extractText response.content))

/-- MCPClient.ask of ClientC (src/unnamed/part_001 lines 741-839): push
the user question, request the first provider round, and run the tool-use
loop. -/
def ClientC.ask (sdk : Option String → Option Json → Except String Json)
    (script : List AnthProviderStep) (history : List AnthMessage) (question : String) :
    List AnthMessage × Except AskError String :=
  let hist1 := history ++ [⟨"user", .str question⟩]
  match script with
  | [] => (hist1, .error .scriptEnded)
  | .error f :: _ => (hist1, .error (.providerError f.status f.body))
  | .ok response :: rest => ClientC.askLoop sdk rest response hist1

/-- A tool as loaded from the MCP server's listing: name with optional
description and input schema (both typed any in the source). -/
structure MCPTool where
  name : String
  description : Option String
  inputSchema : Option Json

/-- The OpenAI function description inside a converted tool schema. -/
structure OpenAIFunction where
  name : String
  description : String
  parameters : Json

/-- One converted OpenAI tool schema (interface OpenAITool, src/oai2.ts
lines 518-529). -/
structure OpenAITool where
  type : String
  function : OpenAIFunction

/-- The default parameter schema of convertMCPToolsToOpenAI (src/oai2.ts
lines 619-623). -/
def defaultOpenAIParameters : Json :=
  Json.obj [("type", Json.str "object"), ("properties", Json.obj []), ("required", Json.arr [])]

/-- MCPClient.convertMCPToolsToOpenAI (src/oai2.ts lines 613-626): one
schema per tool in catalog order; the JS || defaults are truthiness-based,
so an empty-string description and a falsy inputSchema also fall back to
the defaults. -/
def convertMCPToolsToOpenAI (tools : List MCPTool) : List OpenAITool :=
  tools.map fun tool =>
    ⟨"function",
     ⟨tool.name,
      match tool.description with
      | some d => if d = "" then "Execute " ++ tool.name else d
      | none => "Execute " ++ tool.name,
      match tool.inputSchema with
      | some s => if s.truthy then s else defaultOpenAIParameters
      | none => defaultOpenAIParameters⟩⟩

/-- One converted Anthropic tool schema (interface AnthropicTool,
src/unnamed/part_001 lines 550-558). -/
structure AnthropicTool where
  name : String
  description : String
  input_schema : Json

/-- The default input schema of convertMCPToolsToAnthropic
(src/unnamed/part_001 lines 638-641). -/
def defaultAnthropicInputSchema : Json :=
  Json.obj [("type", Json.str "object"), ("properties", Json.obj [])]

/-- MCPClient.convertMCPToolsToAnthropic (src/unnamed/part_001 lines
634-643), with the same truthiness-based defaulting. -/
def convertMCPToolsToAnthropic (tools : List MCPTool) : List AnthropicTool :=
  tools.map fun tool =>
    ⟨tool.name,
     match tool.description with
     | some d => if d = "" then "Execute " ++ tool.name else d
     | none => "Execute " ++ tool.name,
     match tool.inputSchema with
     | some s => if s.truthy then s else defaultAnthropicInputSchema
     | none => defaultAnthropicInputSchema⟩

/-- The conversion exactly as claim C5 states it: description and parameter
schema are passed through whenever present and defaulted only when absent. -/
def convertC5Spec (tools : List MCPTool) : List OpenAITool :=
  tools.map fun tool =>
    ⟨"function",
     ⟨tool.name,
      tool.description.getD ("Execute " ++ tool.name),
      tool.inputSchema.getD defaultOpenAIParameters⟩⟩

/-- MCPClient.loadTools (src/oai2.ts lines 601-611, identical at
src/unnamed/part_001 lines 622-632 and src/oai2.ts lines 107-117): prev is
the catalog before the call and listResult the outcome of the SDK
listTools call, whose tools field may be absent.  The returned pair is the
new catalog together with the outcome of loadTools itself, which is always
Except.ok: the catch block only logs a warning and resets the catalog to
the empty list. -/
def loadTools (prev : List MCPTool)
    (listResult : Except String (Option (List MCPTool))) :
    List MCPTool × Except String Unit :=
  match prev, listResult with
  | _, .ok r => (r.getD [], .ok ())
  | _, .error _ => ([], .ok ())

/-- A store of JS arrays of elements of one type, indexed by reference:
the heap fragment needed to speak about array aliasing. -/
structure RefStore (α : Type) where
  arrays : List (List α)

/-- Reading the array a reference points to. -/
def RefStore.read {α : Type} (s : RefStore α) (r : Nat) : List α :=
  (s.arrays[r]?).getD []

/-- Allocating a fresh array with the given contents; returns the new
store and the new reference. -/
def RefStore.alloc {α : Type} (s : RefStore α) (xs : List α) : RefStore α × Nat :=
  (⟨s.arrays ++ [xs]⟩, s.arrays.length)

/-- Overwriting the array a reference points to - the observable effect of
mutating that array. -/
def RefStore.write {α : Type} (s : RefStore α) (r : Nat) (xs : List α) : RefStore α :=
  ⟨s.arrays.set r xs⟩

/-- MCPClient.getHistory (src/oai2.ts lines 836-838, identical at
src/unnamed/part_001 lines 846-848): return [...this.conversationHistory],
i.e. allocate a fresh array holding the current contents of the
conversation-history array. -/
def getHistory (s : RefStore OpenAIMessage) (historyRef : Nat) :
    RefStore OpenAIMessage × Nat :=
  s.alloc (s.read historyRef)

/-- The tools getter (src/oai2.ts lines 844-846, identical at
src/unnamed/part_001 lines 854-856): return [...this.availableTools]. -/
def toolsGetter (s : RefStore MCPTool) (toolsRef : Nat) :
    RefStore MCPTool × Nat :=
  s.alloc (s.read toolsRef)

/-- A payload whose content is a truthy non-array, non-string value. -/
def payloadC4a : Json := Json.obj [("content", Json.obj [("ok", Json.bool true)])]

/-- A payload whose content is the empty string (present but falsy). -/
def payloadC4b : Json := Json.obj [("content", Json.str "")]

/-- A tool entry whose description is present but empty. -/
def toolC5 : MCPTool := ⟨"t", some "", none⟩

/-- A JSON.parse oracle that succeeds on the string 'good' and fails on
everything else with a SyntaxError message. -/
def parseC2 : String → Except String Json :=
  fun s => if s = "good" then Except.ok (Json.obj []) else
    Except.error "Unexpected token o in JSON at position 0"

/-- A tool call whose argument string does not parse. -/
def tcParseC2 : ToolCall := ⟨"call_1", "calculator", "oops"⟩

/-- A tool call whose argument string parses. -/
def tcSdkC2 : ToolCall := ⟨"call_2", "get_weather", "good"⟩

/-- An SDK callTool oracle that always fails, as for an unknown tool name
or an unreachable tool server. -/
def sdkFailC2 : String → Json → Except String Json :=
  fun _ _ => Except.error "MCP error -32602: Unknown tool"

/-- An SDK callTool oracle that always succeeds. -/
def sdkAltC2 : String → Json → Except String Json :=
  fun _ _ => Except.ok Json.null

/-- A failing SDK callTool oracle for ClientC. -/
def sdkCFailC2 : Option String → Option Json → Except String Json :=
  fun _ _ => Except.error "MCP error -32602: Unknown tool"

/-- A tool_use block of an Anthropic reply. -/
def blockC2 : AnthItem :=
  ⟨"tool_use", none, some "toolu_1", some "calculator", some (Json.obj []), none, none, none⟩

/-- A provider reply requesting one tool call whose arguments do not parse. -/
def respC2 : ChoiceMessage := ⟨none, some [tcParseC2]⟩

/-- A provider reply with final text and no tool calls. -/
def nextC2 : ChoiceMessage := ⟨some "done", none⟩

/-- A provider reply requesting one well-formed tool call. -/
def respC6 : ChoiceMessage := ⟨some "let me check", some [tcSdkC2, tcParseC2]⟩

/-- A one-message conversation-history heap cell. -/
def exampleHistStore : RefStore OpenAIMessage := ⟨[[⟨"user", some "hi", none, none, none⟩]]⟩

/-- A one-tool catalog heap cell. -/
def exampleToolStore : RefStore MCPTool :=
  ⟨[[⟨"calculator", some "Perform basic mathematical calculations", none⟩]]⟩

/-- The conclusion of claim C2 as amended, over a parse-failing call
tcParse (with a second SDK oracle sdkAlt to express that the tool is never
consulted), an SDK-failing call tcSdk, a failing Anthropic tool_use block,
and the continuation of the loop after a dispatch round containing the
failing call. -/
def C2Prop (parse : String → Except String Json)
    (sdk sdkAlt : String → Json → Except String Json)
    (tcParse tcSdk : ToolCall) (m e : String)
    (sdkC : Option String → Option Json → Except String Json) (block : AnthItem) (eC : String)
    (resp next : ChoiceMessage) (rest : List ProviderStep) (hist : List OpenAIMessage)
    (tcs : List ToolCall) : Prop :=
  ClientB.execToolCall parse sdk tcParse
      = ⟨"tool", some ("Error: " ++ m), none, some tcParse.id, none⟩
  ∧ ClientB.execToolCall parse sdkAlt tcParse = ClientB.execToolCall parse sdk tcParse
  ∧ ClientB.execToolCall parse sdk tcSdk
      = ⟨"tool", some ("Error: Tool call failed: " ++ e), none, some tcSdk.id, none⟩
  ∧ ClientC.execToolUse sdkC block
      = ⟨"tool_result", none, none, none, none,
         some ("Error: Tool call failed: " ++ eC), some true, block.id⟩
  ∧ ClientB.askLoop parse sdk (Except.ok next :: rest) resp hist
      = ClientB.askLoop parse sdk rest next
          (hist ++ [⟨"assistant", resp.content, some (tcParse :: tcs), none, none⟩]
                ++ ClientB.dispatchAll parse sdk (tcParse :: tcs))

/-- The conclusion of claim C6: after a provider round requesting the
calls tc :: tcs, the dispatch-phase messages follow the assistant request
turn contiguously in the history, and they carry the originating call ids
in exactly the request order, one message per request. -/
def C6Prop (parse : String → Except String Json)
    (sdk : String → Json → Except String Json)
    (resp : ChoiceMessage) (tc : ToolCall) (tcs : List ToolCall)
    (script : List ProviderStep) (hist : List OpenAIMessage) : Prop :=
  (∃ rest, (ClientB.askLoop parse sdk script resp hist).1
      = hist ++ [⟨"assistant", resp.content, some (tc :: tcs), none, none⟩]
          ++ ClientB.dispatchAll parse sdk (tc :: tcs) ++ rest)
  ∧ (ClientB.dispatchAll parse sdk (tc :: tcs)).map OpenAIMessage.tool_call_id
      = (tc :: tcs).map (fun t => some t.id)
  ∧ (ClientB.dispatchAll parse sdk (tc :: tcs)).length = (tc :: tcs).length

/-- The conclusion of claim C10 for getHistory: the returned reference is
fresh, its contents equal the internal contents, writing through it leaves
the internal array unchanged, and an immediately repeated call returns the
same contents. -/
def C10HistoryProp (s : RefStore OpenAIMessage) (ref : Nat) (xs : List OpenAIMessage) : Prop :=
  (getHistory s ref).2 ≠ ref
  ∧ (getHistory s ref).1.read (getHistory s ref).2 = s.read ref
  ∧ ((getHistory s ref).1.write (getHistory s ref).2 xs).read ref = s.read ref
  ∧ (getHistory (getHistory s ref).1 ref).1.read (getHistory (getHistory s ref).1 ref).2
      = s.read ref

/-- The conclusion of claim C10 for the tools getter, mirror image of
C10HistoryProp. -/
def C10ToolsProp (t : RefStore MCPTool) (ref : Nat) (ys : List MCPTool) : Prop :=
  (toolsGetter t ref).2 ≠ ref
  ∧ (toolsGetter t ref).1.read (toolsGetter t ref).2 = t.read ref
  ∧ ((toolsGetter t ref).1.write (toolsGetter t ref).2 ys).read ref = t.read ref
  ∧ (toolsGetter (toolsGetter t ref).1 ref).1.read (toolsGetter (toolsGetter t ref).1 ref).2
      = t.read ref

/-- Unfolding: a reply without tool_calls ends the loop with the final
assistant turn and the reply content (or empty string). -/
theorem askLoop_no_calls (parse : String → Except String Json)
    (sdk : String → Json → Except String Json)
    (script : List ProviderStep) (c : Option String) (hist : List OpenAIMessage) :
    ClientB.askLoop parse sdk script ⟨c, none⟩ hist
      = (hist ++ [⟨"assistant", c, none, none, none⟩], .ok (c.getD "")) := by
  cases script <;> rfl

/-- Unfolding: a reply with an empty tool_calls list ends the loop the
same way. -/
theorem askLoop_empty_calls (parse : String → Except String Json)
    (sdk : String → Json → Except String Json)
    (script : List ProviderStep) (c : Option String) (hist : List OpenAIMessage) :
    ClientB.askLoop parse sdk script ⟨c, some []⟩ hist
      = (hist ++ [⟨"assistant", c, none, none, none⟩], .ok (c.getD "")) := by
  cases script <;> rfl

/-- Unfolding: a tool-requesting reply with an exhausted script appends
the request turn and the dispatched results, then flags script end. -/
theorem askLoop_calls_scriptEnd (parse : String → Except String Json)
    (sdk : String → Json → Except String Json)
    (c : Option String) (tc : ToolCall) (tcs : List ToolCall) (hist : List OpenAIMessage) :
    ClientB.askLoop parse sdk [] ⟨c, some (tc :: tcs)⟩ hist
      = (hist ++ [⟨"assistant", c, some (tc :: tcs), none, none⟩]
            ++ ClientB.dispatchAll parse sdk (tc :: tcs),
         .error .scriptEnded) := rfl

/-- Unfolding: a tool-requesting reply followed by an HTTP failure appends
the request turn and the dispatched results, then propagates the provider
error. -/
theorem askLoop_calls_httpFail (parse : String → Except String Json)
    (sdk : String → Json → Except String Json)
    (f : HttpFailure) (rest : List ProviderStep)
    (c : Option String) (tc : ToolCall) (tcs : List ToolCall) (hist : List OpenAIMessage) :
    ClientB.askLoop parse sdk (.error f :: rest) ⟨c, some (tc :: tcs)⟩ hist
      = (hist ++ [⟨"assistant", c, some (tc :: tcs), none, none⟩]
            ++ ClientB.dispatchAll parse sdk (tc :: tcs),
         .error (.providerError f.status f.body)) := rfl

/-- Unfolding: a tool-requesting reply followed by a successful round
appends the request turn and the dispatched results and continues the
loop on the next reply. -/
theorem askLoop_calls_next (parse : String → Except String Json)
    (sdk : String → Json → Except String Json)
    (next : ChoiceMessage) (rest : List ProviderStep)
    (c : Option String) (tc : ToolCall) (tcs : List ToolCall) (hist : List OpenAIMessage) :
    ClientB.askLoop parse sdk (.ok next :: rest) ⟨c, some (tc :: tcs)⟩ hist
      = ClientB.askLoop parse sdk rest next
          (hist ++ [⟨"assistant", c, some (tc :: tcs), none, none⟩]
                ++ ClientB.dispatchAll parse sdk (tc :: tcs)) := rfl

/-- Every dispatched tool message is tagged with the id of the call that
produced it, whichever of the three outcomes occurred. -/
theorem execToolCall_tool_call_id (parse : String → Except String Json)
    (sdk : String → Json → Except String Json) (tc : ToolCall) :
    (ClientB.execToolCall parse sdk tc).tool_call_id = some tc.id := by
  unfold ClientB.execToolCall
  cases parse tc.arguments with
  | error m => rfl
  | ok args =>
    cases h : MCPClient.callTool sdk tc.name args with
    | error m => simp [h]
    | ok r => simp [h]

/-- The dispatch phase maps request ids to message tags positionally. -/
theorem dispatchAll_ids (parse : String → Except String Json)
    (sdk : String → Json → Except String Json) (toolCalls : List ToolCall) :
    (ClientB.dispatchAll parse sdk toolCalls).map OpenAIMessage.tool_call_id
      = toolCalls.map (fun t => some t.id) := by
  induction toolCalls with
  | nil => rfl
  | cons tc tcs ih =>
    simp only [ClientB.dispatchAll, List.map_cons] at ih ⊢
    rw [execToolCall_tool_call_id, ih]

/-- The loop only ever appends to the history it is given. -/
theorem askLoop_extends (parse : String → Except String Json)
    (sdk : String → Json → Except String Json) :
    ∀ (script : List ProviderStep) (resp : ChoiceMessage) (hist : List OpenAIMessage),
    ∃ ext, (ClientB.askLoop parse sdk script resp hist).1 = hist ++ ext := by
  intro script
  induction script with
  | nil =>
    intro resp hist
    obtain ⟨c, tca⟩ := resp
    cases tca with
    | none => exact ⟨[⟨"assistant", c, none, none, none⟩], by rw [askLoop_no_calls]⟩
    | some tcs =>
      cases tcs with
      | nil => exact ⟨[⟨"assistant", c, none, none, none⟩], by rw [askLoop_empty_calls]⟩
      | cons tc tcs =>
        refine ⟨[⟨"assistant", c, some (tc :: tcs), none, none⟩]
                  ++ ClientB.dispatchAll parse sdk (tc :: tcs), ?_⟩
        rw [askLoop_calls_scriptEnd]
        simp [List.append_assoc]
  | cons step rest ih =>
    intro resp hist
    obtain ⟨c, tca⟩ := resp
    cases tca with
    | none => exact ⟨[⟨"assistant", c, none, none, none⟩], by rw [askLoop_no_calls]⟩
    | some tcs =>
      cases tcs with
      | nil => exact ⟨[⟨"assistant", c, none, none, none⟩], by rw [askLoop_empty_calls]⟩
      | cons tc tcs =>
        cases step with
        | error f =>
          refine ⟨[⟨"assistant", c, some (tc :: tcs), none, none⟩]
                    ++ ClientB.dispatchAll parse sdk (tc :: tcs), ?_⟩
          rw [askLoop_calls_httpFail]
          simp [List.append_assoc]
        | ok next =>
          obtain ⟨ext, hext⟩ := ih next
            (hist ++ [⟨"assistant", c, some (tc :: tcs), none, none⟩]
                  ++ ClientB.dispatchAll parse sdk (tc :: tcs))
          refine ⟨[⟨"assistant", c, some (tc :: tcs), none, none⟩]
                    ++ ClientB.dispatchAll parse sdk (tc :: tcs) ++ ext, ?_⟩
          rw [askLoop_calls_next, hext]
          simp [List.append_assoc]

/-- Against a script of replies that all request the same tool call, the
loop consumes the whole script and still demands another provider round:
no iteration count ends it. -/
theorem askLoop_always_tools (parse : String → Except String Json)
    (sdk : String → Json → Except String Json)
    (c : Option String) (tc : ToolCall) (tcs : List ToolCall) :
    ∀ (n : Nat) (hist : List OpenAIMessage),
    (ClientB.askLoop parse sdk (List.replicate n (Except.ok ⟨c, some (tc :: tcs)⟩))
        ⟨c, some (tc :: tcs)⟩ hist).2
      = Except.error AskError.scriptEnded := by
  intro n
  induction n with
  | zero =>
    intro hist
    rw [List.replicate_zero, askLoop_calls_scriptEnd]
  | succ n ih =>
    intro hist
    rw [List.replicate_succ, askLoop_calls_next]
    exact ih _

/-- Allocating a copy of a valid array yields a fresh reference with equal
contents; writes through the fresh reference do not change the original,
and a second copy again has the original contents. -/
theorem refStore_fresh {α : Type} (s : RefStore α) (ref : Nat)
    (h : ref < s.arrays.length) (xs : List α) :
    (s.alloc (s.read ref)).2 ≠ ref
    ∧ (s.alloc (s.read ref)).1.read (s.alloc (s.read ref)).2 = s.read ref
    ∧ ((s.alloc (s.read ref)).1.write (s.alloc (s.read ref)).2 xs).read ref = s.read ref
    ∧ ((s.alloc (s.read ref)).1.alloc ((s.alloc (s.read ref)).1.read ref)).1.read
        ((s.alloc (s.read ref)).1.alloc ((s.alloc (s.read ref)).1.read ref)).2
      = s.read ref := by
  obtain ⟨arrays⟩ := s
  simp only [RefStore.alloc, RefStore.read, RefStore.write] at h ⊢
  refine ⟨(Nat.ne_of_lt h).symm, ?_, ?_, ?_⟩
  · rw [List.getElem?_concat_length]
    rfl
  · rw [List.getElem?_set_ne (Nat.ne_of_gt h), List.getElem?_append_left h]
  · rw [List.getElem?_concat_length]
    simp only [Option.getD_some]
    rw [List.getElem?_append_left h]

/-- C1: the claim states that the number of tool-dispatch and provider
round cycles of ask is bounded by an implementation-defined maximum, with
the loop transitioning to Done on exceeding it.  The code enforces no such
bound: against a provider whose every reply requests a tool call, a script
of n tool-requesting rounds - for every n - is wholly consumed with the
loop still demanding round n + 1, never returning partial text. -/
theorem c1_ask_loops_forever_without_round_bound
    (parse : String → Except String Json) (sdk : String → Json → Except String Json)
    (n : Nat) (hist : List OpenAIMessage) (q : String) :
    (ClientB.ask parse sdk
        (List.replicate n (Except.ok ⟨none, some [⟨"call_n", "calculator", "\x7b\x7d"⟩]⟩))
        hist q).2
      = Except.error AskError.scriptEnded := by
  cases n with
  | zero => rfl
  | succ n =>
    rw [List.replicate_succ]
    exact askLoop_always_tools parse sdk none ⟨"call_n", "calculator", "\x7b\x7d"⟩ [] n _

/-- C3: a non-success status of the completion endpoint on the provider
round of the user message propagates to ask's caller as the thrown
provider error carrying status and body; the rest of the script is never
consulted (no retry), and the history holds exactly the prior turns plus
the just-appended user turn. -/
theorem c3_provider_failure_propagates_without_retry
    (parse : String → Except String Json) (sdk : String → Json → Except String Json)
    (f : HttpFailure) (rest : List ProviderStep) (hist : List OpenAIMessage) (q : String) :
    ClientB.ask parse sdk (Except.error f :: rest) hist q
      = (hist ++ [⟨"user", some q, none, none, none⟩],
         Except.error (AskError.providerError f.status f.body))
    ∧ AskError.message (AskError.providerError f.status f.body)
      = "OpenAI API error: " ++ toString f.status ++ " " ++ f.body :=
  ⟨rfl, rfl⟩

/-- C4 counterexample: the normalization does not serialize the whole
payload when content is a truthy non-array, non-string value (it
serializes the content value alone), and an empty-string content is not
used unchanged (the whole payload is serialized instead); at both concrete
payloads the code differs from the claim's normalization rule. -/
theorem c4_normalization_differs_from_claim :
    normalizeToolResult payloadC4a ≠ normalizeC4Spec payloadC4a
    ∧ normalizeToolResult payloadC4b ≠ normalizeC4Spec payloadC4b
    ∧ normalizeC4Spec payloadC4b = ""
    ∧ normalizeToolResult payloadC4a = (Json.obj [("ok", Json.bool true)]).stringify := by
  refine ⟨by decide, by decide, rfl, rfl⟩

/-- C4 as amended: with a present and truthy content the code joins an
array with newlines, passes a non-empty string through, and serializes any
other truthy content value by itself; with content absent or falsy (the
empty string in particular) it serializes the whole payload. -/
theorem c4_normalization_amended (payload : Json) :
    normalizeToolResult payload = normalizeC4Amended payload := by
  simp only [normalizeToolResult, normalizeC4Amended]
  cases hc : payload.lookup "content" with
  | none => rfl
  | some c =>
    cases c with
    | null => rfl
    | bool b => rfl
    | num n => rfl
    | str s => by_cases hs : s = "" <;> simp [Json.truthy, hs]
    | arr items => rfl
    | obj fields => rfl

/-- C5 counterexample: a tool whose description is present but empty is
not passed through as the claim states - the JS || default replaces it
with Execute followed by the name. -/
theorem c5_empty_description_defaulted :
    (convertMCPToolsToOpenAI [toolC5]).map (fun t => t.function.description) = ["Execute t"]
    ∧ (convertC5Spec [toolC5]).map (fun t => t.function.description) = [""]
    ∧ ("Execute t" : String) ≠ "" :=
  ⟨rfl, rfl, by decide⟩

/-- C5 as amended: both schema conversions produce exactly one entry per
tool in catalog order with the name passed through unchanged; the
description is the tool's description when present and non-empty and
Execute plus the name otherwise, the parameter schema is the tool's input
schema when present and truthy and the empty-object default otherwise;
description and parameters are always present in the output and the
conversion is total. -/
theorem c5_schema_conversion_amended (tools : List MCPTool) :
    (convertMCPToolsToOpenAI tools).length = tools.length
    ∧ (convertMCPToolsToOpenAI tools).map (fun t => t.type) = tools.map (fun _ => "function")
    ∧ (convertMCPToolsToOpenAI tools).map (fun t => t.function.name) = tools.map MCPTool.name
    ∧ (convertMCPToolsToOpenAI tools).map (fun t => t.function.description)
        = tools.map (fun t => if t.description.getD "" = "" then "Execute " ++ t.name
                              else t.description.getD "")
    ∧ (convertMCPToolsToOpenAI tools).map (fun t => t.function.parameters)
        = tools.map (fun t => if (t.inputSchema.getD Json.null).truthy
                              then t.inputSchema.getD Json.null else defaultOpenAIParameters)
    ∧ (convertMCPToolsToAnthropic tools).map (fun t => t.name) = tools.map MCPTool.name
    ∧ (convertMCPToolsToAnthropic tools).map (fun t => t.description)
        = tools.map (fun t => if t.description.getD "" = "" then "Execute " ++ t.name
                              else t.description.getD "")
    ∧ (convertMCPToolsToAnthropic tools).map (fun t => t.input_schema)
        = tools.map (fun t => if (t.inputSchema.getD Json.null).truthy
                              then t.inputSchema.getD Json.null else defaultAnthropicInputSchema) := by
  refine ⟨?_, ?_, ?_, ?_, ?_, ?_, ?_, ?_⟩ <;>
    simp only [convertMCPToolsToOpenAI, convertMCPToolsToAnthropic,
               List.map_map, List.length_map, Function.comp] <;>
    refine List.map_eq_map_iff.mpr fun t _ => ?_
  · rfl
  · rfl
  · cases hd : t.description with
    | none => simp [hd]
    | some d => by_cases hde : d = "" <;> simp [hd, hde]
  · cases hs : t.inputSchema with
    | none => simp [hs, Json.truthy]
    | some s => simp [hs]
  · rfl
  · cases hd : t.description with
    | none => simp [hd]
    | some d => by_cases hde : d = "" <;> simp [hd, hde]
  · cases hs : t.inputSchema with
    | none => simp [hs, Json.truthy]
    | some s => simp [hs]

/-- C9 counterexample: when the listing call fails, loadTools does not
fail with any error - it returns normally (the catch block only logs),
with the catalog reset to the empty list. -/
theorem c9_listing_failure_returns_ok :
    loadTools [toolC5] (Except.error "transport down") = ([], Except.ok ())
    ∧ (Except.ok () : Except String Unit) ≠ Except.error "CatalogUnavailable" :=
  ⟨rfl, fun h => nomatch h⟩

/-- C9 as amended: a failed listing resets the catalog to the empty list
(never leaving the previous contents) and loadTools returns normally, so
the session degrades to a tool-less conversation instead of aborting; a
successful listing replaces the catalog with the reported tools, or with
the empty list when the tools field is absent. -/
theorem c9_listing_failure_resets_catalog (prev : List MCPTool) (e : String)
    (ts : List MCPTool) :
    loadTools prev (Except.error e) = ([], Except.ok ())
    ∧ loadTools prev (Except.ok (some ts)) = (ts, Except.ok ())
    ∧ loadTools prev (Except.ok none) = ([], Except.ok ()) :=
  ⟨rfl, rfl, rfl⟩

/-- Unfolding: a ClientC reply whose stop_reason is end_turn skips the
tool loop, pushes the final assistant turn and returns the concatenated
text. -/
theorem askLoopC_end_turn (sdk : Option String → Option Json → Except String Json)
    (script : List AnthProviderStep) (blocks : List AnthItem) (hist : List AnthMessage) :
    ClientC.askLoop sdk script ⟨some "end_turn", blocks⟩ hist
      = (hist ++ [⟨"assistant", .blocks blocks⟩], .ok (ClientC.extractText blocks)) := by
  cases script with
  | nil => rfl
  | cons step rest => cases step <;> rfl

/-- C2 as amended: a failed dispatch is reported to the model as data and
the loop proceeds.  In the OpenAI-style client a parse failure or an SDK
failure appends a role 'tool' message tagged with the originating call id
whose content starts with 'Error:', the tool oracle is never consulted
when parsing fails (any two oracles yield the same message), and the loop
continues into the next provider round; in the Anthropic-style client the
collected tool_result additionally carries is_error = true. -/
theorem c2_failed_dispatch_reported_and_loop_continues
    (parse : String → Except String Json) (sdk sdkAlt : String → Json → Except String Json)
    (tcParse tcSdk : ToolCall) (m : String) (args : Json) (e : String)
    (sdkC : Option String → Option Json → Except String Json) (block : AnthItem) (eC : String)
    (next : ChoiceMessage) (rest : List ProviderStep) (hist : List OpenAIMessage)
    (c : Option String) (tcs : List ToolCall)
    (h1 : parse tcParse.arguments = Except.error m)
    (h2 : parse tcSdk.arguments = Except.ok args)
    (h3 : sdk tcSdk.name args = Except.error e)
    (h4 : sdkC block.name block.input = Except.error eC) :
    C2Prop parse sdk sdkAlt tcParse tcSdk m e sdkC block eC
      ⟨c, some (tcParse :: tcs)⟩ next rest hist tcs := by
  refine ⟨?_, ?_, ?_, ?_, ?_⟩
  · simp [ClientB.execToolCall, h1]
  · simp [ClientB.execToolCall, h1]
  · simp [ClientB.execToolCall, h2, MCPClient.callTool, h3]
    rw [← String.append_assoc]
    rfl
  · simp [ClientC.execToolUse, ClientC.callTool, h4]
    rw [← String.append_assoc]
    rfl
  · exact askLoop_calls_next parse sdk next rest c tcParse tcs hist

/-- C2 witness: the amended dispatch behavior at a concrete failing parse,
a concrete failing SDK call and a concrete failing Anthropic tool_use. -/
theorem c2_failed_dispatch_witness :
    parseC2 tcParseC2.arguments = Except.error "Unexpected token o in JSON at position 0"
    ∧ parseC2 tcSdkC2.arguments = Except.ok (Json.obj [])
    ∧ sdkFailC2 tcSdkC2.name (Json.obj []) = Except.error "MCP error -32602: Unknown tool"
    ∧ sdkCFailC2 blockC2.name blockC2.input = Except.error "MCP error -32602: Unknown tool"
    ∧ C2Prop parseC2 sdkFailC2 sdkAltC2 tcParseC2 tcSdkC2
        "Unexpected token o in JSON at position 0" "MCP error -32602: Unknown tool"
        sdkCFailC2 blockC2 "MCP error -32602: Unknown tool"
        ⟨none, some [tcParseC2]⟩ nextC2 [] [] [] :=
  ⟨rfl, rfl, rfl, rfl,
   c2_failed_dispatch_reported_and_loop_continues parseC2 sdkFailC2 sdkAltC2 tcParseC2 tcSdkC2
     "Unexpected token o in JSON at position 0" (Json.obj []) "MCP error -32602: Unknown tool"
     sdkCFailC2 blockC2 "MCP error -32602: Unknown tool" nextC2 [] [] none []
     rfl rfl rfl rfl⟩

/-- C2 counterexample: in the OpenAI-style client a failing dispatch
appends a role 'tool' message that carries the originating call id and an
'Error:' content but no is_error property at all - the claim's
is_error = true does not hold on this concrete failing call. -/
theorem c2_openai_error_turn_lacks_is_error :
    (ClientB.execToolCall parseC2 sdkFailC2 tcParseC2).is_error = none
    ∧ ¬ (ClientB.execToolCall parseC2 sdkFailC2 tcParseC2).is_error = some true
    ∧ (ClientB.execToolCall parseC2 sdkFailC2 tcParseC2).role = "tool"
    ∧ (ClientB.execToolCall parseC2 sdkFailC2 tcParseC2).tool_call_id = some tcParseC2.id
    ∧ (ClientB.execToolCall parseC2 sdkFailC2 tcParseC2).content
        = some ("Error: " ++ "Unexpected token o in JSON at position 0") :=
  ⟨rfl, by decide, rfl, rfl, rfl⟩

/-- C6: after a provider round requesting the calls tc :: tcs, the
dispatched ToolResult turns follow the request turn contiguously in the
history, one per request, tagged with the originating call ids in exactly
the request order; the dispatch is sequential, so completion order cannot
differ from request order. -/
theorem c6_tool_results_in_request_order
    (parse : String → Except String Json) (sdk : String → Json → Except String Json)
    (c : Option String) (tc : ToolCall) (tcs : List ToolCall)
    (script : List ProviderStep) (hist : List OpenAIMessage) :
    C6Prop parse sdk ⟨c, some (tc :: tcs)⟩ tc tcs script hist := by
  refine ⟨?_, dispatchAll_ids parse sdk (tc :: tcs), by simp [ClientB.dispatchAll]⟩
  cases script with
  | nil =>
    refine ⟨[], ?_⟩
    rw [askLoop_calls_scriptEnd]
    simp
  | cons step rest =>
    cases step with
    | error f =>
      refine ⟨[], ?_⟩
      rw [askLoop_calls_httpFail]
      simp
    | ok next =>
      obtain ⟨ext, hext⟩ := askLoop_extends parse sdk rest next
        (hist ++ [⟨"assistant", c, some (tc :: tcs), none, none⟩]
              ++ ClientB.dispatchAll parse sdk (tc :: tcs))
      refine ⟨ext, ?_⟩
      rw [askLoop_calls_next, hext]

/-- C7 as amended: in the OpenAI-style ClientB and the Anthropic-style
ClientC a reply with no text content and no tool requests produces the
empty string as the returned final answer, without error; the first
client in src/oai2.ts instead substitutes a placeholder (see the
counterexample). -/
theorem c7_empty_reply_yields_empty_final
    (parse : String → Except String Json) (sdk : String → Json → Except String Json)
    (rest : List ProviderStep) (hist : List OpenAIMessage) (q : String)
    (sdkC : Option String → Option Json → Except String Json)
    (restC : List AnthProviderStep) (histC : List AnthMessage) (qC : String) :
    ClientB.ask parse sdk (Except.ok ⟨none, none⟩ :: rest) hist q
      = (hist ++ [⟨"user", some q, none, none, none⟩, ⟨"assistant", none, none, none, none⟩],
         Except.ok "")
    ∧ ClientC.ask sdkC (Except.ok ⟨some "end_turn", []⟩ :: restC) histC qC
      = (histC ++ [⟨"user", .str qC⟩, ⟨"assistant", .blocks []⟩], Except.ok "") := by
  constructor
  · rw [show ClientB.ask parse sdk (Except.ok ⟨none, none⟩ :: rest) hist q
          = ClientB.askLoop parse sdk rest ⟨none, none⟩
              (hist ++ [⟨"user", some q, none, none, none⟩]) from rfl]
    rw [askLoop_no_calls]
    simp
  · rw [show ClientC.ask sdkC (Except.ok ⟨some "end_turn", []⟩ :: restC) histC qC
          = ClientC.askLoop sdkC restC ⟨some "end_turn", []⟩
              (histC ++ [⟨"user", .str qC⟩]) from rfl]
    rw [askLoopC_end_turn]
    simp
    rfl

/-- C7 counterexample: the first client in src/oai2.ts returns the
placeholder string 'No response content', not the empty string, when the
final reply carries no content. -/
theorem c7_first_client_placeholder_text :
    (ClientA.finalPhase none).2 = "No response content"
    ∧ (ClientA.finalPhase none).1 = ⟨"assistant", none, none, none, none⟩
    ∧ ("No response content" : String) ≠ "" :=
  ⟨rfl, rfl, by decide⟩

/-- C8 as amended: in ClientB the final text T is appended as the
assistant turn content and returned unchanged for every T (including the
empty string); in ClientA the same round trip holds for every non-empty
final text, the empty text being replaced by a placeholder on return (see
the counterexample); in ClientC the appended assistant turn holds the
reply blocks and the returned string is exactly their concatenated text. -/
theorem c8_final_text_roundtrip_amended
    (parse : String → Except String Json) (sdk : String → Json → Except String Json)
    (rest : List ProviderStep) (hist : List OpenAIMessage) (q T : String)
    (S : String) (hS : S ≠ "")
    (sdkC : Option String → Option Json → Except String Json)
    (restC : List AnthProviderStep) (histC : List AnthMessage) (qC : String)
    (blocks : List AnthItem) :
    ClientB.ask parse sdk (Except.ok ⟨some T, none⟩ :: rest) hist q
      = (hist ++ [⟨"user", some q, none, none, none⟩,
                  ⟨"assistant", some T, none, none, none⟩],
         Except.ok T)
    ∧ (ClientA.finalPhase (some S)).1.content = some S
    ∧ (ClientA.finalPhase (some S)).2 = S
    ∧ ClientC.ask sdkC (Except.ok ⟨some "end_turn", blocks⟩ :: restC) histC qC
      = (histC ++ [⟨"user", .str qC⟩, ⟨"assistant", .blocks blocks⟩],
         Except.ok (ClientC.extractText blocks)) := by
  refine ⟨?_, rfl, ?_, ?_⟩
  · rw [show ClientB.ask parse sdk (Except.ok ⟨some T, none⟩ :: rest) hist q
          = ClientB.askLoop parse sdk rest ⟨some T, none⟩
              (hist ++ [⟨"user", some q, none, none, none⟩]) from rfl]
    rw [askLoop_no_calls]
    simp
  · show (if S = "" then "No response content" else S) = S
    rw [if_neg hS]
  · rw [show ClientC.ask sdkC (Except.ok ⟨some "end_turn", blocks⟩ :: restC) histC qC
          = ClientC.askLoop sdkC restC ⟨some "end_turn", blocks⟩
              (histC ++ [⟨"user", .str qC⟩]) from rfl]
    rw [askLoopC_end_turn]
    simp

/-- C8 witness: the amended round trip at the text 'The answer is 4.' and
concrete oracles, with the non-emptiness hypothesis discharged. -/
theorem c8_final_text_roundtrip_witness :
    ("The answer is 4." : String) ≠ ""
    ∧ (ClientB.ask parseC2 sdkAltC2 [Except.ok ⟨some "The answer is 4.", none⟩] [] "what is 2+2"
        = ([⟨"user", some "what is 2+2", none, none, none⟩,
            ⟨"assistant", some "The answer is 4.", none, none, none⟩],
           Except.ok "The answer is 4.")
      ∧ (ClientA.finalPhase (some "The answer is 4.")).1.content = some "The answer is 4."
      ∧ (ClientA.finalPhase (some "The answer is 4.")).2 = "The answer is 4."
      ∧ ClientC.ask sdkCFailC2 [Except.ok ⟨some "end_turn", []⟩] [] "what is 2+2"
        = ([⟨"user", .str "what is 2+2"⟩, ⟨"assistant", .blocks []⟩],
           Except.ok (ClientC.extractText []))) := by
  refine ⟨by decide, ?_⟩
  have h := c8_final_text_roundtrip_amended parseC2 sdkAltC2 [] [] "what is 2+2"
    "The answer is 4." "The answer is 4." (by decide) sdkCFailC2 [] [] "what is 2+2" []
  simpa using h

/-- C8 counterexample: in the first client of src/oai2.ts a Final decision
with empty text T appends the assistant turn with content T but returns
the placeholder, which is not byte-identical to T. -/
theorem c8_first_client_breaks_roundtrip :
    (ClientA.finalPhase (some "")).1.content = some ""
    ∧ (ClientA.finalPhase (some "")).2 = "No response content"
    ∧ ("No response content" : String) ≠ "" :=
  ⟨rfl, rfl, by decide⟩

/-- C10: getHistory and the tools getter allocate fresh shallow copies:
the returned reference differs from the internal one, holds equal
contents, writing through it leaves the internal array unchanged, and an
immediately repeated call returns the same contents again. -/
theorem c10_getters_return_fresh_copies (s : RefStore OpenAIMessage) (ref : Nat)
    (h : ref < s.arrays.length) (xs : List OpenAIMessage)
    (t : RefStore MCPTool) (tref : Nat) (ht : tref < t.arrays.length) (ys : List MCPTool) :
    C10HistoryProp s ref xs ∧ C10ToolsProp t tref ys :=
  ⟨refStore_fresh s ref h xs, refStore_fresh t tref ht ys⟩

/-- C10 witness: the fresh-copy behavior on concrete one-array stores. -/
theorem c10_getters_return_fresh_copies_witness :
    0 < exampleHistStore.arrays.length ∧ 0 < exampleToolStore.arrays.length
    ∧ (C10HistoryProp exampleHistStore 0 [] ∧ C10ToolsProp exampleToolStore 0 []) :=
  ⟨by decide, by decide,
   c10_getters_return_fresh_copies exampleHistStore 0 (by decide) []
     exampleToolStore 0 (by decide) []⟩
